import Mathlib

/-!
Shallow embedding of `horriblesubs_batch_downloader/episodes_scraper.py`.

Python episode-number values are either numeral strings (single episodes),
lists of ints (batch ranges) or `None`; the collected-numbers set holds
strings, ints and possibly `None`.  Python equality between a string and an
int is `False`, which the structural equality of the inductive types below
reproduces.  HTML parsing (BeautifulSoup) and HTTP fetching are external
collaborators: a listing page is modelled as its list of `release-links`
blocks in document order, each block providing the label text of its `i`
tag and the magnet href of its `hs-magnet-link` cell.
-/

/-- A Python value stored in `episode_numbers_collected` (a string numeral,
an int from an expanded batch range, or `None`). -/
inductive PyKey where
  | pynone : PyKey
  | str : String → PyKey
  | int : Nat → PyKey
deriving DecidableEq, Repr

/-- The `episode_number` field of an episode dict: a numeral string, a list
of ints (batch range) or `None`. -/
inductive EpNum where
  | pynone : EpNum
  | str : String → EpNum
  | ints : List Nat → EpNum
deriving DecidableEq, Repr

/-- The Python exceptions the scraper can raise: builtin `ValueError` and
`AttributeError`, and the repository's `HorribleSubsException` and
`RegexFailedToMatch`. -/
inductive PyErr where
  | valueError : PyErr
  | attributeError : PyErr
  | horribleSubsException : PyErr
  | regexFailedToMatch : PyErr
deriving DecidableEq, Repr

/-- Modelled from the spec: the repository's `exception.py` is not under
`src/`, so the class hierarchy behind `except HorribleSubsException` is
taken from spec §7: `NoStandaloneEpisodesError` (raised as
`HorribleSubsException("there are no individual episodes")`) is the one
recoverable kind, while `PatternMismatchError` (`RegexFailedToMatch`) is
fatal and propagates.  Builtin `ValueError`/`AttributeError` are never
instances of a user-defined exception class. -/
def isHorribleSubsException : PyErr → Bool
  | .horribleSubsException => true
  | _ => false

/-- Value of a decimal digit string, `int(s)` on an all-digit string. -/
def digitsVal (l : List Char) : Nat :=
  l.foldl (fun acc c => acc * 10 + (c.toNat - 48)) 0

/-- Python `int(s)` on the strings produced by the scraper's regex groups
(characters drawn from `[.0-9a-zA-Z]`): succeeds exactly on nonempty
all-digit strings, otherwise raises `ValueError` (modelled as `none`). -/
def pyInt (s : String) : Option Nat :=
  if !s.data.isEmpty && s.data.all Char.isDigit then some (digitsVal s.data)
  else none

/-- Match a literal character sequence at the front of the input, returning
the rest of the input. -/
def eatLit : List Char → List Char → Option (List Char)
  | [], l => some l
  | _ :: _, [] => none
  | c :: cs, x :: xs => if x = c then eatLit cs xs else none

/-- The character class `[.\da-zA-Z]` of the episode-number group in
`episode_data_regex`. -/
def isEpChar (c : Char) : Bool := c = '.' || c.isDigit || c.isAlpha

/-- Tail of `episode_data_regex` after the leading `.*`:
`" - ([.\da-zA-Z]*) \[(\d*p)\]"`, matched at a fixed position.  Each
starred group is followed by a character outside its class, so the greedy
maximal run is the unique candidate. -/
def singleTail (l : List Char) : Option (String × String) :=
  match eatLit [' ', '-', ' '] l with
  | none => none
  | some l1 =>
    let g1 := l1.takeWhile isEpChar
    let l2 := l1.dropWhile isEpChar
    match eatLit [' ', '['] l2 with
    | none => none
    | some l3 =>
      let g2 := l3.takeWhile Char.isDigit
      let l4 := l3.dropWhile Char.isDigit
      match eatLit ['p', ']'] l4 with
      | none => none
      | some _ => some (String.mk g1, String.mk (g2 ++ ['p']))

/-- Tail of `batch_episodes_data_regex` after the leading `.*`:
`" \((\d*)-(\d*)\) \[(\d*p)\]"`, matched at a fixed position. -/
def batchTail (l : List Char) : Option (String × String × String) :=
  match eatLit [' ', '('] l with
  | none => none
  | some l1 =>
    let g1 := l1.takeWhile Char.isDigit
    let l2 := l1.dropWhile Char.isDigit
    match eatLit ['-'] l2 with
    | none => none
    | some l3 =>
      let g2 := l3.takeWhile Char.isDigit
      let l4 := l3.dropWhile Char.isDigit
      match eatLit [')', ' ', '['] l4 with
      | none => none
      | some l5 =>
        let g3 := l5.takeWhile Char.isDigit
        let l6 := l5.dropWhile Char.isDigit
        match eatLit ['p', ']'] l6 with
        | none => none
        | some _ => some (String.mk g1, String.mk g2, String.mk (g3 ++ ['p']))

/-- The literal part of `show_id_regex = r".*var hs_showid = (\d*)"`. -/
def showIdMarker : List Char := "var hs_showid = ".data

/-- Tail of `show_id_regex` after the leading `.*`: the marker literal
followed by a greedy, possibly empty digit group. -/
def showIdTail (l : List Char) : Option String :=
  match eatLit showIdMarker l with
  | none => none
  | some l1 => some (String.mk (l1.takeWhile Char.isDigit))

/-- Backtracking of a greedy leading `.*`: try the tail pattern at offset
`k`, then `k - 1`, ..., then `0`; the largest offset whose tail matches
wins, exactly as Python's greedy `.*` backtracks. -/
def tryGreedy {α : Type} (t : List Char → Option α) (l : List Char) :
    Nat → Option α
  | 0 => t l
  | k + 1 =>
    match t (l.drop (k + 1)) with
    | some v => some v
    | none => tryGreedy t l k

/-- Without `re.DOTALL`, `.*` cannot cross a newline, so the leading `.*`
can consume at most the newline-free first segment of the input. -/
def dotStarLimit (l : List Char) : Nat :=
  (l.takeWhile (fun c => c ≠ '\n')).length

/-- `re.match(episode_data_regex, label)`: groups (episode numeral,
resolution incl. trailing `p`). -/
def matchEpisodeData (s : String) : Option (String × String) :=
  tryGreedy singleTail s.data (dotStarLimit s.data)

/-- `re.match(batch_episodes_data_regex, label)`: groups (first, last,
resolution incl. trailing `p`). -/
def matchBatchData (s : String) : Option (String × String × String) :=
  tryGreedy batchTail s.data (dotStarLimit s.data)

/-- `get_show_id_from_url`, applied to the fetched page body:
`re.match(r".*var hs_showid = (\d*)", html, flags=re.DOTALL)`, raising
`RegexFailedToMatch` when there is no match.  With `re.DOTALL` the leading
greedy `.*` may consume the whole body, so every offset is tried. -/
def get_show_id_from_url (html : String) : Except PyErr String :=
  match tryGreedy showIdTail html.data html.data.length with
  | some g => Except.ok g
  | none => Except.error PyErr.regexFailedToMatch

/-- One `release-links` div: the text of its `i` tag and the magnet href
(the DOM lookup is the external HTML collaborator). -/
structure Block where
  label : String
  magnet : String
deriving DecidableEq, Repr

/-- One entry appended to `self.episodes`. -/
structure Episode where
  episode_number : EpNum
  video_resolution : String
  magnet_url : String
deriving DecidableEq, Repr

/-- The shared mutable scraper state touched by the parsers. -/
structure ScraperState where
  episodes : List Episode
  episode_numbers_collected : Finset PyKey
  all_episodes_acquired : Bool
deriving DecidableEq

/-- The fields as initialised in `__init__` before any parsing. -/
def initialState : ScraperState := ⟨[], ∅, false⟩

def keyOfOpt : Option String → PyKey
  | none => PyKey.pynone
  | some s => PyKey.str s

def numOfOpt : Option String → EpNum
  | none => EpNum.pynone
  | some s => EpNum.str s

/-- `_add_episode`: appends the dict (with
`episode_range if episode_range else episode_number`, where an empty list
is falsy) and updates the collected set (`update` with the range's ints if
the range is truthy, else `add` of the episode-number value). -/
def add_episode (s : ScraperState) (episode_number : Option String)
    (episode_range : Option (List Nat)) (vres mag : String) : ScraperState :=
  let num : EpNum :=
    match episode_range with
    | some r => if r.isEmpty then numOfOpt episode_number else EpNum.ints r
    | none => numOfOpt episode_number
  let collected : Finset PyKey :=
    match episode_range with
    | some r =>
      if r.isEmpty then insert (keyOfOpt episode_number) s.episode_numbers_collected
      else s.episode_numbers_collected ∪ (r.map PyKey.int).toFinset
    | none => insert (keyOfOpt episode_number) s.episode_numbers_collected
  { episodes := s.episodes ++ [⟨num, vres, mag⟩]
    episode_numbers_collected := collected
    all_episodes_acquired := s.all_episodes_acquired }

/-- `self.episode_numbers_collected == self.episodes_available`: a Python
set compares unequal to `None` and extensionally to another set. -/
def eqAvailable (collected : Finset PyKey) : Option (Finset PyKey) → Bool
  | none => false
  | some a => decide (collected = a)

/-- Loop body of `parse_episodes` over the (already reversed) block list,
followed by the completion check of lines 180-181.  A label that fails
`episode_data_regex` raises `RegexFailedToMatch` on the spot; the state
reached so far is returned alongside the error (Python exceptions do not
roll back prior mutations). -/
def parseEpisodesGo (avail : Option (Finset PyKey)) :
    ScraperState → List Block → ScraperState × Option PyErr
  | s, [] =>
    ({ s with all_episodes_acquired :=
        if eqAvailable s.episode_numbers_collected avail then true
        else s.all_episodes_acquired }, none)
  | s, b :: rest =>
    match matchEpisodeData b.label with
    | none => (s, some PyErr.regexFailedToMatch)
    | some (ep, vres) =>
      if PyKey.str ep ∈ s.episode_numbers_collected then
        parseEpisodesGo avail s rest
      else
        parseEpisodesGo avail (add_episode s (some ep) none vres b.magnet) rest

/-- `parse_episodes`: traverse the page's `release-links` divs in reverse
document order, then run the completion check against
`episodes_available`. -/
def parse_episodes (avail : Option (Finset PyKey)) (s : ScraperState)
    (blocks : List Block) : ScraperState × Option PyErr :=
  parseEpisodesGo avail s blocks.reverse

/-- `list(range(int(first), int(last) + 1))`. -/
def expandRange (a b : Nat) : List Nat := List.range' a (b + 1 - a)

/-- Loop body of `parse_batch_episodes` over the (already reversed) block
list: match `batch_episodes_data_regex`, convert both groups with `int`
(raising `ValueError` on a non-digit group), expand the range, skip when an
entry with an identical `episode_number` list already exists, else add. -/
def parseBatchGo : ScraperState → List Block → ScraperState × Option PyErr
  | s, [] => (s, none)
  | s, b :: rest =>
    match matchBatchData b.label with
    | none => (s, some PyErr.regexFailedToMatch)
    | some (f, l, vres) =>
      match pyInt f, pyInt l with
      | some a, some b2 =>
        if s.episodes.any (fun e => decide (e.episode_number = EpNum.ints (expandRange a b2))) then
          parseBatchGo s rest
        else
          parseBatchGo (add_episode s none (some (expandRange a b2)) vres b.magnet) rest
      | _, _ => (s, some PyErr.valueError)

/-- `parse_batch_episodes`: reverse document order, no completion check. -/
def parse_batch_episodes (s : ScraperState) (blocks : List Block) :
    ScraperState × Option PyErr :=
  parseBatchGo s blocks.reverse

/-- `get_most_recent_episode_number`, applied to the unpaginated show
page's blocks: `soup.find` takes the first `release-links` div (raising
`HorribleSubsException` if there is none), and the episode-numeral group of
its label is returned as a string. -/
def get_most_recent_episode_number (showPage : List Block) :
    Except PyErr String :=
  match showPage.head? with
  | none => Except.error PyErr.horribleSubsException
  | some b =>
    match matchEpisodeData b.label with
    | none => Except.error PyErr.regexFailedToMatch
    | some (ep, _) => Except.ok ep

/-- Body of the `try:` block of lines 66-70: look up the most recent
episode numeral and build `set(range(1, int(numeral) + 1))`; `int` on a
non-digit numeral raises `ValueError`. -/
def availTryBody (showPage : List Block) : Except PyErr (Finset PyKey) :=
  match get_most_recent_episode_number showPage with
  | Except.error e => Except.error e
  | Except.ok ep =>
    match pyInt ep with
    | some n => Except.ok ((List.range' 1 n).map PyKey.int).toFinset
    | none => Except.error PyErr.valueError

/-- Lines 66-76: the `try/except HorribleSubsException` around the
most-recent-episode lookup; a caught exception leaves
`episodes_available = None`, any other exception propagates. -/
def resolveAvailable (showPage : List Block) :
    Except PyErr (Option (Finset PyKey)) :=
  match availTryBody showPage with
  | Except.ok a => Except.ok (some a)
  | Except.error e =>
    if isHorribleSubsException e then Except.ok none else Except.error e

/-- A fetch of a paginated episode page: either the `"DONE"` sentinel body
or a page parsed (by the external DOM collaborator) into its blocks. -/
inductive PageFetch where
  | done : PageFetch
  | blocks : List Block → PageFetch

/-- Outcome of the pagination loop: final shared state, the pages whose
parse threads were started (one `self.threads.append` per `thread.start()`),
and the threads the coordinator joined — the source contains no
`Thread.join` call, so no join is ever recorded. -/
structure LoopOut where
  state : ScraperState
  dispatched : List Nat
  joined : List Nat
deriving DecidableEq

/-- `parse_all_in_parallel`: fetch page 0 without incrementing the cursor,
then while the body is not `"DONE"` and `all_episodes_acquired` is false,
start a parse thread for the fetched page and fetch the next page.  Each
dispatched thread's parse is modelled as completing before the next loop
check (one admissible schedule); an exception inside a thread kills only
that thread, so the parse error is discarded and the loop continues.
`fuel` bounds the number of iterations considered. -/
def parse_all_in_parallel (avail : Option (Finset PyKey))
    (pages : Nat → PageFetch) : Nat → Nat → ScraperState → LoopOut
  | 0, _, s => ⟨s, [], []⟩
  | fuel + 1, idx, s =>
    match pages idx with
    | PageFetch.done => ⟨s, [], []⟩
    | PageFetch.blocks bs =>
      if s.all_episodes_acquired then ⟨s, [], []⟩
      else
        let s' := (parse_episodes avail s bs).1
        let out := parse_all_in_parallel avail pages fuel (idx + 1) s'
        ⟨out.state, idx :: out.dispatched, out.joined⟩

/-- `if self.episodes_available:` — `None` and the empty set are falsy. -/
def availTruthy : Option (Finset PyKey) → Bool
  | none => false
  | some a => decide (a ≠ ∅)

/-- Outcome of `__init__` from line 56 on: final state,
`episodes_available`, dispatched pages and joined threads. -/
structure InitOut where
  state : ScraperState
  available : Option (Finset PyKey)
  dispatched : List Nat
  joined : List Nat

/-- Lines 56-91 of `__init__`: resolve `episodes_available` (recovering
from `HorribleSubsException`), initialise the shared state, parse the batch
page synchronously, then run the pagination loop only when
`episodes_available` is truthy.  `showPage` is the unpaginated show
listing, `batchPage` the batch listing, `pages` the paginated fetches. -/
def initScrape (showPage batchPage : List Block) (pages : Nat → PageFetch)
    (fuel : Nat) : Except PyErr InitOut :=
  match resolveAvailable showPage with
  | Except.error e => Except.error e
  | Except.ok avail =>
    match parse_batch_episodes initialState batchPage with
    | (s1, none) =>
      if availTruthy avail then
        let out := parse_all_in_parallel avail pages fuel 0 s1
        Except.ok ⟨out.state, avail, out.dispatched, out.joined⟩
      else Except.ok ⟨s1, avail, [], []⟩
    | (_, some e) => Except.error e

/-- A Python value passed as `show_id` or `show_url`. -/
inductive PyVal where
  | pynone : PyVal
  | int : Int → PyVal
  | str : String → PyVal
deriving DecidableEq, Repr

/-- Python truthiness of the argument values. -/
def truthy : PyVal → Bool
  | PyVal.pynone => false
  | PyVal.int n => decide (n ≠ 0)
  | PyVal.str s => decide (s ≠ "")

/-- How `__init__` would go on to obtain the show id. -/
inductive IdSource where
  | fromUrl : IdSource
  | direct : PyVal → IdSource
deriving DecidableEq, Repr

/-- Lines 36-46 of `__init__`: `not show_id and not show_url` raises
`ValueError`; `show_url and not show_id` resolves the id from the url;
otherwise `not isinstance(show_id, int) or not show_id.isdigit()` is
evaluated — `False or (int).isdigit()` raises `AttributeError` for every
int, and the condition is `True` (raising `ValueError`) for every non-int,
so the `self.show_id = show_id` assignment is unreachable. -/
def checkArgs (show_id show_url : PyVal) : Except PyErr IdSource :=
  if !truthy show_id && !truthy show_url then Except.error PyErr.valueError
  else if truthy show_url && !truthy show_id then Except.ok IdSource.fromUrl
  else
    match show_id with
    | PyVal.int _ => Except.error PyErr.attributeError
    | _ => Except.error PyErr.valueError

/-- The show-id marker (the `\d+` form of the spec's pattern) occurs at
offset `k` of the body. -/
def occursAt (html : String) (k : Nat) : Prop :=
  (html.data.drop k).take showIdMarker.length = showIdMarker

/-- An episode entry claims the integer episode number `n`: either its
numeral string has int value `n`, or its range contains `n`. -/
def entryClaimsInt (e : Episode) (n : Nat) : Prop :=
  (∃ s, e.episode_number = EpNum.str s ∧ pyInt s = some n) ∨
  (∃ l, e.episode_number = EpNum.ints l ∧ n ∈ l)

/-! ### Lemmas about the regex embedding -/

theorem eatLit_eq (lit : List Char) : ∀ l : List Char,
    eatLit lit l =
      if l.take lit.length = lit then some (l.drop lit.length) else none := by
  induction lit with
  | nil => intro l; simp [eatLit]
  | cons c cs ih =>
    intro l
    cases l with
    | nil => simp [eatLit]
    | cons x xs =>
      by_cases hx : x = c
      · subst hx
        simp [eatLit, ih xs, List.take_succ_cons, List.drop_succ_cons]
      · simp [eatLit, hx, List.take_succ_cons]

theorem tryGreedy_eq_some {α : Type} (t : List Char → Option α) (l : List Char)
    (v : α) : ∀ n k : Nat, k ≤ n → t (l.drop k) = some v →
    (∀ j, k < j → j ≤ n → t (l.drop j) = none) → tryGreedy t l n = some v := by
  intro n
  induction n with
  | zero =>
    intro k hk hv _
    have hk0 : k = 0 := Nat.le_zero.mp hk
    subst hk0
    simpa [tryGreedy] using hv
  | succ n ih =>
    intro k hk hv hmax
    by_cases hkn : k = n + 1
    · subst hkn
      simp [tryGreedy, hv]
    · have hk' : k ≤ n := by omega
      have hnone : t (l.drop (n + 1)) = none := hmax (n + 1) (by omega) (le_refl _)
      simp only [tryGreedy, hnone]
      exact ih k hk' hv (fun j h1 h2 => hmax j h1 (by omega))

theorem tryGreedy_eq_none {α : Type} (t : List Char → Option α) (l : List Char) :
    ∀ n : Nat, (∀ j, j ≤ n → t (l.drop j) = none) → tryGreedy t l n = none := by
  intro n
  induction n with
  | zero =>
    intro h
    simpa [tryGreedy] using h 0 (le_refl _)
  | succ n ih =>
    intro h
    have hnone : t (l.drop (n + 1)) = none := h (n + 1) (le_refl _)
    simp only [tryGreedy, hnone]
    exact ih (fun j hj => h j (by omega))

theorem showIdTail_eq (l : List Char) :
    showIdTail l =
      if l.take showIdMarker.length = showIdMarker
      then some (String.mk ((l.drop showIdMarker.length).takeWhile Char.isDigit))
      else none := by
  by_cases h : l.take showIdMarker.length = showIdMarker <;>
    simp [showIdTail, eatLit_eq, h]

instance occursAtDecidable (html : String) (k : Nat) :
    Decidable (occursAt html k) :=
  List.hasDecEq ((html.data.drop k).take showIdMarker.length) showIdMarker

theorem occursAt_lt_length (html : String) (k : Nat) (h : occursAt html k) :
    k < html.data.length := by
  by_contra hc
  have hd : html.data.drop k = [] := List.drop_eq_nil_of_le (by omega)
  unfold occursAt at h
  rw [hd] at h
  simp [showIdMarker] at h

/-- Claim C4 (amended): over the whole body, the greedy leading `.*` of
`show_id_regex` makes the LAST occurrence of the `var hs_showid = ` marker
win, not the first: show-id discovery returns the (possibly empty) digit
run following the last occurrence, and fails with `RegexFailedToMatch`
exactly when the marker does not occur. -/
theorem c4_amended_thm (html : String) (k : Nat) :
    ((occursAt html k ∧
        (∀ j, j < html.data.length + 1 → k < j → ¬ occursAt html j)) →
      get_show_id_from_url html = Except.ok
        (String.mk
          ((html.data.drop (k + showIdMarker.length)).takeWhile Char.isDigit)))
    ∧ ((∀ j, j < html.data.length + 1 → ¬ occursAt html j) →
      get_show_id_from_url html = Except.error PyErr.regexFailedToMatch) := by
  constructor
  · rintro ⟨hk, hmax⟩
    have hklt : k < html.data.length := occursAt_lt_length html k hk
    have hk' : (html.data.drop k).take showIdMarker.length = showIdMarker := hk
    have hv : showIdTail (html.data.drop k) = some
        (String.mk
          ((html.data.drop (k + showIdMarker.length)).takeWhile Char.isDigit)) := by
      rw [showIdTail_eq, if_pos hk']
      rw [List.drop_drop]
    have hnone : ∀ j, k < j → j ≤ html.data.length →
        showIdTail (html.data.drop j) = none := by
      intro j h1 h2
      have hj' : ¬ (html.data.drop j).take showIdMarker.length = showIdMarker :=
        fun hc => hmax j (by omega) h1 hc
      rw [showIdTail_eq, if_neg hj']
    unfold get_show_id_from_url
    rw [tryGreedy_eq_some showIdTail html.data _ html.data.length k
      (le_of_lt hklt) hv hnone]
  · intro hnone
    unfold get_show_id_from_url
    rw [tryGreedy_eq_none showIdTail html.data html.data.length
      (fun j hj => by
        have hj' : ¬ (html.data.drop j).take showIdMarker.length = showIdMarker :=
          fun hc => hnone j (by omega) hc
        rw [showIdTail_eq, if_neg hj'])]

/-- Witness for C4 (amended): on `"xx var hs_showid = 7"` the only marker
occurrence is at offset 3 and discovery returns `"7"`. -/
theorem c4_amended_witness :
    get_show_id_from_url "xx var hs_showid = 7" = Except.ok
      (String.mk
        ((("xx var hs_showid = 7" : String).data.drop
          (3 + showIdMarker.length)).takeWhile Char.isDigit)) :=
  (c4_amended_thm "xx var hs_showid = 7" 3).1 ⟨by decide, by decide⟩

/-- Claim C4 is false as stated: on a body with two occurrences of the
show-id marker pattern, the code returns the digits of the LAST occurrence
(`"22"`), not of the first (`"11"`). -/
theorem c4_counterexample :
    get_show_id_from_url "var hs_showid = 11 and var hs_showid = 22" =
      Except.ok "22"
    ∧ occursAt "var hs_showid = 11 and var hs_showid = 22" 0
    ∧ String.mk
        ((("var hs_showid = 11 and var hs_showid = 22" : String).data.drop
          (0 + showIdMarker.length)).takeWhile Char.isDigit) = "11"
    ∧ ("22" : String) ≠ "11" :=
  ⟨rfl, by decide, rfl, by decide⟩

/-- Claim C3: the constructor's validation is broken for every directly
supplied show id: an integer id reaches `show_id.isdigit()` and raises
`AttributeError` (ints have no `isdigit`), and a digit string makes
`not isinstance(show_id, int)` true and raises `ValueError` — so the
repository's own `__main__` call with `show_id = 731` fails before any
network activity, contradicting the claim that well-formed integer ids are
accepted. -/
theorem c3_validation_always_rejects :
    checkArgs (PyVal.int 731) PyVal.pynone = Except.error PyErr.attributeError
    ∧ checkArgs (PyVal.str "731") PyVal.pynone = Except.error PyErr.valueError
    ∧ checkArgs PyVal.pynone PyVal.pynone = Except.error PyErr.valueError :=
  ⟨rfl, rfl, rfl⟩

/-! ### Lemmas about the page parsers and the pagination loop -/

theorem add_episode_flag (s : ScraperState) (en : Option String)
    (er : Option (List Nat)) (vres mag : String) :
    (add_episode s en er vres mag).all_episodes_acquired =
      s.all_episodes_acquired := rfl

theorem add_episode_single_episodes (s : ScraperState) (ep vres mag : String) :
    (add_episode s (some ep) none vres mag).episodes =
      s.episodes ++ [⟨EpNum.str ep, vres, mag⟩] := rfl

theorem add_episode_single_collected (s : ScraperState) (ep vres mag : String) :
    (add_episode s (some ep) none vres mag).episode_numbers_collected =
      insert (PyKey.str ep) s.episode_numbers_collected := rfl

theorem parseEpisodesGo_flag (avail : Option (Finset PyKey)) :
    ∀ (l : List Block) (s : ScraperState),
      ((parseEpisodesGo avail s l).2 = none →
        (parseEpisodesGo avail s l).1.all_episodes_acquired =
          (s.all_episodes_acquired ||
            eqAvailable
              (parseEpisodesGo avail s l).1.episode_numbers_collected avail))
      ∧ ((parseEpisodesGo avail s l).2 ≠ none →
        (parseEpisodesGo avail s l).1.all_episodes_acquired =
          s.all_episodes_acquired) := by
  intro l
  induction l with
  | nil =>
    intro s
    constructor
    · intro _
      simp only [parseEpisodesGo]
      cases h : eqAvailable s.episode_numbers_collected avail <;> simp [h]
    · intro h
      simp [parseEpisodesGo] at h
  | cons b rest ih =>
    intro s
    cases hm : matchEpisodeData b.label with
    | none =>
      constructor
      · intro h
        simp [parseEpisodesGo, hm] at h
      · intro _
        simp [parseEpisodesGo, hm]
    | some pr =>
      obtain ⟨ep, vres⟩ := pr
      by_cases hmem : PyKey.str ep ∈ s.episode_numbers_collected
      · simpa only [parseEpisodesGo, hm, if_pos hmem] using ih s
      · have h2 := ih (add_episode s (some ep) none vres b.magnet)
        rw [add_episode_flag] at h2
        simpa only [parseEpisodesGo, hm, if_neg hmem] using h2

theorem parseEpisodesGo_mono (avail : Option (Finset PyKey)) :
    ∀ (l : List Block) (s : ScraperState), s.all_episodes_acquired = true →
      (parseEpisodesGo avail s l).1.all_episodes_acquired = true := by
  intro l
  induction l with
  | nil =>
    intro s h
    simp only [parseEpisodesGo]
    cases heq : eqAvailable s.episode_numbers_collected avail <;> simp [heq, h]
  | cons b rest ih =>
    intro s h
    cases hm : matchEpisodeData b.label with
    | none => simp [parseEpisodesGo, hm, h]
    | some pr =>
      obtain ⟨ep, vres⟩ := pr
      by_cases hmem : PyKey.str ep ∈ s.episode_numbers_collected
      · simp only [parseEpisodesGo, hm, if_pos hmem]
        exact ih s h
      · simp only [parseEpisodesGo, hm, if_neg hmem]
        exact ih _ (by rw [add_episode_flag]; exact h)

theorem parse_all_no_dispatch (avail : Option (Finset PyKey))
    (pages : Nat → PageFetch) (fuel idx : Nat) (s : ScraperState)
    (h : s.all_episodes_acquired = true) :
    (parse_all_in_parallel avail pages fuel idx s).dispatched = [] := by
  cases fuel with
  | zero => rfl
  | succ n =>
    cases hp : pages idx with
    | done => simp [parse_all_in_parallel, hp]
    | blocks bs => simp [parse_all_in_parallel, hp, h]

/-- Claim C2: after a (normally completed) page parse the completion flag
equals `old flag OR (collected == available)`, so it becomes true exactly
when the collected set equals the available set; a parse aborted by an
exception leaves the flag untouched; the flag is never reset, so it
transitions from false to true at most once; and whenever the coordinator
loop observes the flag true, it dispatches no further page parses. -/
theorem c2_completion_flag_law (avail : Option (Finset PyKey))
    (pages : Nat → PageFetch) (fuel idx : Nat) (s : ScraperState)
    (blocks : List Block) :
    ((parse_episodes avail s blocks).2 = none →
      (parse_episodes avail s blocks).1.all_episodes_acquired =
        (s.all_episodes_acquired ||
          eqAvailable
            (parse_episodes avail s blocks).1.episode_numbers_collected avail))
    ∧ ((parse_episodes avail s blocks).2 ≠ none →
      (parse_episodes avail s blocks).1.all_episodes_acquired =
        s.all_episodes_acquired)
    ∧ (s.all_episodes_acquired = true →
      (parse_episodes avail s blocks).1.all_episodes_acquired = true)
    ∧ (s.all_episodes_acquired = true →
      (parse_all_in_parallel avail pages fuel idx s).dispatched = []) :=
  ⟨(parseEpisodesGo_flag avail blocks.reverse s).1,
   (parseEpisodesGo_flag avail blocks.reverse s).2,
   fun h => parseEpisodesGo_mono avail blocks.reverse s h,
   fun h => parse_all_no_dispatch avail pages fuel idx s h⟩

def sAcqEx : ScraperState := ⟨[], ∅, true⟩

def pagesDoneEx : Nat → PageFetch := fun _ => PageFetch.done

/-- Witness for C2 at concrete inputs: an empty page parse from a state
with the flag already true keeps it true, an erroring page leaves it
untouched, and the loop dispatches nothing once the flag is observed
true. -/
theorem c2_witness :
    ((parse_episodes none sAcqEx []).1.all_episodes_acquired =
      (sAcqEx.all_episodes_acquired ||
        eqAvailable
          (parse_episodes none sAcqEx []).1.episode_numbers_collected none))
    ∧ ((parse_episodes none sAcqEx [⟨"junk!", "m"⟩]).1.all_episodes_acquired =
        sAcqEx.all_episodes_acquired)
    ∧ (parse_episodes none sAcqEx []).1.all_episodes_acquired = true
    ∧ (parse_all_in_parallel none pagesDoneEx 1 0 sAcqEx).dispatched = [] :=
  ⟨(c2_completion_flag_law none pagesDoneEx 1 0 sAcqEx []).1 rfl,
   (c2_completion_flag_law none pagesDoneEx 1 0 sAcqEx [⟨"junk!", "m"⟩]).2.1
     (by decide),
   (c2_completion_flag_law none pagesDoneEx 1 0 sAcqEx []).2.2.1 rfl,
   (c2_completion_flag_law none pagesDoneEx 1 0 sAcqEx []).2.2.2 rfl⟩

theorem parseEpisodesGo_skip (avail : Option (Finset PyKey)) (ep : String) :
    ∀ (l : List Block) (s : ScraperState),
      PyKey.str ep ∈ s.episode_numbers_collected →
      ((parseEpisodesGo avail s l).1.episodes.countP
          (fun e => decide (e.episode_number = EpNum.str ep)) =
        s.episodes.countP (fun e => decide (e.episode_number = EpNum.str ep)))
      ∧ PyKey.str ep ∈
          (parseEpisodesGo avail s l).1.episode_numbers_collected := by
  intro l
  induction l with
  | nil => intro s h; exact ⟨rfl, h⟩
  | cons b rest ih =>
    intro s h
    cases hm : matchEpisodeData b.label with
    | none =>
      simp only [parseEpisodesGo, hm]
      exact ⟨trivial, h⟩
    | some pr =>
      obtain ⟨ep', vres⟩ := pr
      by_cases hmem : PyKey.str ep' ∈ s.episode_numbers_collected
      · simp only [parseEpisodesGo, hm, if_pos hmem]
        exact ih s h
      · simp only [parseEpisodesGo, hm, if_neg hmem]
        have hep : ep' ≠ ep := fun hc => hmem (hc ▸ h)
        have h1 : PyKey.str ep ∈
            (add_episode s (some ep') none vres b.magnet).episode_numbers_collected := by
          rw [add_episode_single_collected]
          exact Finset.mem_insert_of_mem h
        have hrec := ih (add_episode s (some ep') none vres b.magnet) h1
        have hc : (add_episode s (some ep') none vres b.magnet).episodes.countP
            (fun e => decide (e.episode_number = EpNum.str ep)) =
            s.episodes.countP
              (fun e => decide (e.episode_number = EpNum.str ep)) := by
          rw [add_episode_single_episodes, List.countP_append]
          simp [hep]
        exact ⟨hc ▸ hrec.1, hrec.2⟩

/-- Claim C1 (amended): the dedup check for single-episode entries is
membership of the episode numeral STRING in the shared cross-page collected
set — once a numeral string is collected, a later single-episode candidate
with the same numeral is discarded, never appended.  (As the counterexample
shows, batch expansion collects Python ints, which never compare equal to
numeral strings, so an integer covered by a batch range does NOT block a
later single-episode entry for the same number.) -/
theorem c1_amended_thm (avail : Option (Finset PyKey)) (s : ScraperState)
    (blocks : List Block) (ep : String)
    (h : PyKey.str ep ∈ s.episode_numbers_collected) :
    (parse_episodes avail s blocks).1.episodes.countP
        (fun e => decide (e.episode_number = EpNum.str ep)) =
      s.episodes.countP (fun e => decide (e.episode_number = EpNum.str ep)) :=
  (parseEpisodesGo_skip avail ep blocks.reverse s h).1

def cStateEx : ScraperState := ⟨[], {PyKey.str "5"}, false⟩

/-- Witness for C1 (amended): with numeral string `"5"` already collected,
a page offering episode 5 again appends no entry for it. -/
theorem c1_amended_witness :
    (parse_episodes none cStateEx [⟨"X - 5 [480p]", "m"⟩]).1.episodes.countP
        (fun e => decide (e.episode_number = EpNum.str "5")) = 0 :=
  (c1_amended_thm none cStateEx [⟨"X - 5 [480p]", "m"⟩] "5" (by decide)).trans
    rfl

/-- Claim C1 is false as stated: after a batch `(5-6)` is collected (as the
ints 5 and 6), a later single-episode block for episode 5 is NOT discarded
— the numeral string `"5"` is not a member of a set of ints — so the
integer episode number 5 ends up claimed by two different entries. -/
theorem c1_counterexample :
    ((parse_episodes none
        (parse_batch_episodes initialState [⟨"Show (5-6) [1080p]", "m1"⟩]).1
        [⟨"Show - 5 [720p]", "m2"⟩]).1.episodes =
      [⟨EpNum.ints [5, 6], "1080p", "m1"⟩, ⟨EpNum.str "5", "720p", "m2"⟩])
    ∧ entryClaimsInt ⟨EpNum.ints [5, 6], "1080p", "m1"⟩ 5
    ∧ entryClaimsInt ⟨EpNum.str "5", "720p", "m2"⟩ 5 :=
  ⟨by decide, Or.inr ⟨[5, 6], rfl, by decide⟩, Or.inl ⟨"5", rfl, by decide⟩⟩

/-- Claim C5 (amended): the reversed-traversal dedup always retains the
block processed FIRST in reversed order, i.e. the LAST in document order,
whatever its resolution: for two blocks with the same episode numeral the
retained entry is the second block's, so the high-resolution variant wins
only when document order places lower resolutions first. -/
theorem c5_amended_thm (avail : Option (Finset PyKey)) (s : ScraperState)
    (l1 l2 m1 m2 ep r1 r2 : String)
    (h1 : matchEpisodeData l1 = some (ep, r1))
    (h2 : matchEpisodeData l2 = some (ep, r2))
    (hfresh : PyKey.str ep ∉ s.episode_numbers_collected) :
    (parse_episodes avail s [⟨l1, m1⟩, ⟨l2, m2⟩]).1.episodes =
      s.episodes ++ [⟨EpNum.str ep, r2, m2⟩] := by
  show (parseEpisodesGo avail s [⟨l2, m2⟩, ⟨l1, m1⟩]).1.episodes = _
  simp only [parseEpisodesGo, h2, if_neg hfresh]
  have hmem : PyKey.str ep ∈
      (add_episode s (some ep) none r2 m2).episode_numbers_collected := by
    rw [add_episode_single_collected]
    exact Finset.mem_insert_self _ _
  simp only [h1, if_pos hmem]
  rw [add_episode_single_episodes]

/-- Witness for C5 (amended): document order [480p, 1080p] for the same
episode yields the 1080p entry. -/
theorem c5_amended_witness :
    (parse_episodes none initialState
        [⟨"X - 7 [480p]", "mA"⟩, ⟨"X - 7 [1080p]", "mB"⟩]).1.episodes =
      [⟨EpNum.str "7", "1080p", "mB"⟩] :=
  (c5_amended_thm none initialState "X - 7 [480p]" "X - 7 [1080p]" "mA" "mB"
    "7" "480p" "1080p" rfl rfl (by decide)).trans rfl

/-- Claim C5 is false as stated: for document order [high-res, low-res] of
the same episode, reversed traversal processes the low-res block first and
retains it — the final entry has resolution 480p, not 1080p. -/
theorem c5_counterexample :
    (parse_episodes none initialState
        [⟨"X - 5 [1080p]", "m1"⟩, ⟨"X - 5 [480p]", "m2"⟩]).1.episodes =
      [⟨EpNum.str "5", "480p", "m2"⟩]
    ∧ ("480p" : String) ≠ "1080p" :=
  ⟨by decide, by decide⟩

theorem parseEpisodesGo_error_after (avail : Option (Finset PyKey))
    (bad : Block) (rest : List Block)
    (hbad : matchEpisodeData bad.label = none) :
    ∀ (gs : List Block) (s : ScraperState),
      (∀ b ∈ gs, (matchEpisodeData b.label).isSome) →
      (parseEpisodesGo avail s (gs ++ bad :: rest)).2 =
        some PyErr.regexFailedToMatch
      ∧ (∃ t, (parseEpisodesGo avail s (gs ++ bad :: rest)).1.episodes =
          s.episodes ++ t)
      ∧ s.episode_numbers_collected ⊆
          (parseEpisodesGo avail s (gs ++ bad :: rest)).1.episode_numbers_collected
      ∧ ∀ b ∈ gs, ∀ ep vres, matchEpisodeData b.label = some (ep, vres) →
          PyKey.str ep ∈
            (parseEpisodesGo avail s (gs ++ bad :: rest)).1.episode_numbers_collected := by
  intro gs
  induction gs with
  | nil =>
    intro s _
    simp only [List.nil_append, parseEpisodesGo, hbad]
    exact ⟨trivial, ⟨[], (List.append_nil _).symm⟩, Finset.Subset.refl _, by simp⟩
  | cons g gs' ih =>
    intro s hgs
    have hg : (matchEpisodeData g.label).isSome := hgs g (by simp)
    obtain ⟨pr, hg'⟩ := Option.isSome_iff_exists.mp hg
    obtain ⟨ep', vres'⟩ := pr
    have hgs' : ∀ b ∈ gs', (matchEpisodeData b.label).isSome :=
      fun b hb => hgs b (List.mem_cons_of_mem _ hb)
    by_cases hmem : PyKey.str ep' ∈ s.episode_numbers_collected
    · simp only [List.cons_append, List.append_eq, parseEpisodesGo, hg',
        if_pos hmem]
      have H := ih s hgs'
      refine ⟨H.1, H.2.1, H.2.2.1, ?_⟩
      intro b hb ep vres hm
      rcases List.mem_cons.mp hb with hbg | hbgs
      · have hpair := Option.some.inj ((hbg ▸ hg').symm.trans hm)
        have hep : ep = ep' := (congrArg Prod.fst hpair).symm
        exact hep ▸ H.2.2.1 hmem
      · exact H.2.2.2 b hbgs ep vres hm
    · simp only [List.cons_append, List.append_eq, parseEpisodesGo, hg',
        if_neg hmem]
      have H := ih (add_episode s (some ep') none vres' g.magnet) hgs'
      have hsub1 : s.episode_numbers_collected ⊆
          (add_episode s (some ep') none vres' g.magnet).episode_numbers_collected := by
        rw [add_episode_single_collected]
        exact Finset.subset_insert _ _
      have hmem1 : PyKey.str ep' ∈
          (add_episode s (some ep') none vres' g.magnet).episode_numbers_collected := by
        rw [add_episode_single_collected]
        exact Finset.mem_insert_self _ _
      refine ⟨H.1, ?_, hsub1.trans H.2.2.1, ?_⟩
      · obtain ⟨t, ht⟩ := H.2.1
        refine ⟨⟨EpNum.str ep', vres', g.magnet⟩ :: t, ?_⟩
        rw [ht, add_episode_single_episodes, List.append_assoc]
        rfl
      · intro b hb ep vres hm
        rcases List.mem_cons.mp hb with hbg | hbgs
        · have hpair := Option.some.inj ((hbg ▸ hg').symm.trans hm)
          have hep : ep = ep' := (congrArg Prod.fst hpair).symm
          exact hep ▸ H.2.2.1 hmem1
        · exact H.2.2.2 b hbgs ep vres hm

/-- Claim C9: page parsing is not atomic on error — when the reversed
traversal first processes blocks whose labels match and then hits a block
whose label matches neither the single-episode nor the batch shape, the
parse raises `RegexFailedToMatch`, but the entries appended for the
earlier-processed blocks remain in the shared collection and their numeral
strings remain in the collected set (no rollback). -/
theorem c9_thm (avail : Option (Finset PyKey)) (s : ScraperState)
    (blocks gs rest : List Block) (bad : Block)
    (hrev : blocks.reverse = gs ++ bad :: rest)
    (hgs : ∀ b ∈ gs, (matchEpisodeData b.label).isSome)
    (hbad1 : matchEpisodeData bad.label = none)
    (_hbad2 : matchBatchData bad.label = none) :
    (parse_episodes avail s blocks).2 = some PyErr.regexFailedToMatch
    ∧ (∃ t, (parse_episodes avail s blocks).1.episodes = s.episodes ++ t)
    ∧ s.episode_numbers_collected ⊆
        (parse_episodes avail s blocks).1.episode_numbers_collected
    ∧ ∀ b ∈ gs, ∀ ep vres, matchEpisodeData b.label = some (ep, vres) →
        PyKey.str ep ∈
          (parse_episodes avail s blocks).1.episode_numbers_collected := by
  unfold parse_episodes
  rw [hrev]
  exact parseEpisodesGo_error_after avail bad rest hbad1 gs s hgs

/-- Witness for C9: a page whose first (document-order) block is garbage
and whose second block is a valid episode raises the error after the valid
block (processed first in reversed order) was appended and collected. -/
theorem c9_witness :
    (parse_episodes none initialState
        [⟨"junk!", "m0"⟩, ⟨"S - 1 [720p]", "m1"⟩]).2 =
      some PyErr.regexFailedToMatch
    ∧ (∃ t, (parse_episodes none initialState
        [⟨"junk!", "m0"⟩, ⟨"S - 1 [720p]", "m1"⟩]).1.episodes =
          initialState.episodes ++ t)
    ∧ initialState.episode_numbers_collected ⊆
        (parse_episodes none initialState
          [⟨"junk!", "m0"⟩, ⟨"S - 1 [720p]", "m1"⟩]).1.episode_numbers_collected
    ∧ ∀ b ∈ [(⟨"S - 1 [720p]", "m1"⟩ : Block)], ∀ ep vres,
        matchEpisodeData b.label = some (ep, vres) →
        PyKey.str ep ∈
          (parse_episodes none initialState
            [⟨"junk!", "m0"⟩, ⟨"S - 1 [720p]", "m1"⟩]).1.episode_numbers_collected :=
  c9_thm none initialState [⟨"junk!", "m0"⟩, ⟨"S - 1 [720p]", "m1"⟩]
    [⟨"S - 1 [720p]", "m1"⟩] [] ⟨"junk!", "m0"⟩ rfl (by decide) rfl rfl

theorem parse_batch_single (label mag f l vres : String) (a b : Nat)
    (hm : matchBatchData label = some (f, l, vres))
    (ha : pyInt f = some a) (hb : pyInt l = some b) :
    parse_batch_episodes initialState [⟨label, mag⟩] =
      (add_episode initialState none (some (expandRange a b)) vres mag,
        none) := by
  show parseBatchGo initialState [⟨label, mag⟩] = _
  simp only [parseBatchGo, hm, ha, hb]
  rfl

/-- Claim C6 (amended): a label matching the batch format is expanded to
`range(int(first), int(last) + 1)`; when `first ≤ last` this is the
inclusive consecutive sequence from first to last, of length
`last - first + 1`, but the format does NOT guarantee `first ≤ last`: when
`first > last` the regex still matches and the expansion is empty (the
entry is then stored with a falsy range). -/
theorem c6_amended_thm (label mag f l vres : String) (a b : Nat)
    (hm : matchBatchData label = some (f, l, vres))
    (ha : pyInt f = some a) (hb : pyInt l = some b) :
    ((parse_batch_episodes initialState [⟨label, mag⟩]).1.episodes =
      [⟨if (expandRange a b).isEmpty then EpNum.pynone
        else EpNum.ints (expandRange a b), vres, mag⟩])
    ∧ expandRange a b = List.range' a (b + 1 - a)
    ∧ (a ≤ b → (expandRange a b).length = b - a + 1)
    ∧ (b < a → expandRange a b = []) := by
  refine ⟨?_, rfl, ?_, ?_⟩
  · rw [parse_batch_single label mag f l vres a b hm ha hb]
    rfl
  · intro h
    unfold expandRange
    rw [List.length_range']
    omega
  · intro h
    unfold expandRange
    have hz : b + 1 - a = 0 := by omega
    rw [hz]
    rfl

/-- Witness for C6 (amended): the batch label `"A (2-4) [720p]"` expands to
`[2, 3, 4]`, of length `4 - 2 + 1`. -/
theorem c6_amended_witness :
    (parse_batch_episodes initialState [⟨"A (2-4) [720p]", "m"⟩]).1.episodes =
      [⟨EpNum.ints [2, 3, 4], "720p", "m"⟩]
    ∧ (expandRange 2 4).length = 4 - 2 + 1 :=
  ⟨((c6_amended_thm "A (2-4) [720p]" "m" "2" "4" "720p" 2 4 rfl rfl
      rfl).1).trans (by decide),
   (c6_amended_thm "A (2-4) [720p]" "m" "2" "4" "720p" 2 4 rfl rfl
      rfl).2.2.1 (by decide)⟩

/-- Claim C6 is false as stated: the label `"A (5-3) [720p]"` matches the
batch format with first = 5 and last = 3, so the extracted pair does not
satisfy first ≤ last, and the expanded sequence is empty rather than of
length last - first + 1. -/
theorem c6_counterexample :
    matchBatchData "A (5-3) [720p]" = some ("5", "3", "720p")
    ∧ pyInt "5" = some 5 ∧ pyInt "3" = some 3
    ∧ ¬ (5 ≤ 3) ∧ expandRange 5 3 = [] :=
  ⟨rfl, rfl, rfl, by decide, rfl⟩

/-- Claim C7: when the show has no standalone episodes (empty unpaginated
listing) but has a batch release, the run does not fail: the
`HorribleSubsException` is caught, `episodes_available` stays `None`
(unknown), the batch phase still populates the collection, the pagination
phase is skipped (no page dispatched), and the final collection is exactly
the one batch entry with the expanded range as its episode number. -/
theorem c7_thm (label mag f l vres : String) (a b : Nat)
    (pages : Nat → PageFetch) (fuel : Nat)
    (hm : matchBatchData label = some (f, l, vres))
    (ha : pyInt f = some a) (hb : pyInt l = some b) (hab : a ≤ b) :
    ∃ o : InitOut, initScrape [] [⟨label, mag⟩] pages fuel = Except.ok o
      ∧ o.available = none
      ∧ o.dispatched = []
      ∧ o.state.episodes = [⟨EpNum.ints (expandRange a b), vres, mag⟩] := by
  have hne : ¬ (expandRange a b).isEmpty = true := by
    unfold expandRange
    rw [List.isEmpty_iff, ← List.length_eq_zero, List.length_range']
    omega
  refine ⟨⟨add_episode initialState none (some (expandRange a b)) vres mag,
    none, [], []⟩, ?_, rfl, rfl, ?_⟩
  · have hra : resolveAvailable [] = Except.ok none := rfl
    have hpb := parse_batch_single label mag f l vres a b hm ha hb
    simp only [initScrape, hra, hpb]
    rfl
  · show ([] ++ [⟨if (expandRange a b).isEmpty then numOfOpt none
      else EpNum.ints (expandRange a b), vres, mag⟩] : List Episode) = _
    rw [if_neg hne]
    rfl

/-- Witness for C7: a show with only the batch `"Show (1-13) [1080p]"`
yields exactly one entry covering episodes 1 through 13 and no pagination.
-/
theorem c7_witness :
    ∃ o : InitOut, initScrape [] [⟨"Show (1-13) [1080p]", "mag"⟩]
        pagesDoneEx 5 = Except.ok o
      ∧ o.available = none
      ∧ o.dispatched = []
      ∧ o.state.episodes = [⟨EpNum.ints (expandRange 1 13), "1080p", "mag"⟩] :=
  c7_thm "Show (1-13) [1080p]" "mag" "1" "13" "1080p" 1 13 pagesDoneEx 5
    rfl rfl rfl (by decide)

/-- Claim C10: when the most-recent single-episode label matches the
single-episode pattern but its numeral group is not a nonempty string of
decimal digits (the class `[.\da-zA-Z]` also admits letters and dots, e.g.
`"13.5"`), `int(last_ep_number)` raises `ValueError`, which the
`except HorribleSubsException` clause does not catch: the constructor fails
with an unhandled integer-conversion error instead of succeeding or taking
the recoverable unknown-count path. -/
theorem c10_thm (blk : Block) (showRest batchPage : List Block)
    (g vres : String) (pages : Nat → PageFetch) (fuel : Nat)
    (hm : matchEpisodeData blk.label = some (g, vres))
    (hg : pyInt g = none) :
    initScrape (blk :: showRest) batchPage pages fuel =
      Except.error PyErr.valueError := by
  have h1 : get_most_recent_episode_number (blk :: showRest) =
      Except.ok g := by
    simp [get_most_recent_episode_number, hm]
  have h2 : availTryBody (blk :: showRest) = Except.error PyErr.valueError := by
    simp [availTryBody, h1, hg]
  have h3 : resolveAvailable (blk :: showRest) =
      Except.error PyErr.valueError := by
    simp [resolveAvailable, h2, isHorribleSubsException]
  simp [initScrape, h3]

/-- Witness for C10: a show whose most recent episode is labelled
`"Show - 13.5 [720p]"` makes the constructor fail with `ValueError`. -/
theorem c10_witness :
    initScrape [⟨"Show - 13.5 [720p]", "m"⟩] [] pagesDoneEx 1 =
      Except.error PyErr.valueError :=
  c10_thm ⟨"Show - 13.5 [720p]", "m"⟩ [] [] "13.5" "720p" pagesDoneEx 1
    rfl rfl

theorem parse_all_joined (avail : Option (Finset PyKey))
    (pages : Nat → PageFetch) :
    ∀ (fuel idx : Nat) (s : ScraperState),
      (parse_all_in_parallel avail pages fuel idx s).joined = [] := by
  intro fuel
  induction fuel with
  | zero => intro idx s; rfl
  | succ n ih =>
    intro idx s
    cases hp : pages idx with
    | done => simp [parse_all_in_parallel, hp]
    | blocks bs =>
      by_cases h : s.all_episodes_acquired <;>
        simp [parse_all_in_parallel, hp, h, ih]

/-- Claim C8 (amended): the coordinator retains a handle for every
dispatched page-parse thread (one entry of `dispatched` per
`thread.start()` / `self.threads.append`), but it never joins any of them —
the source contains no `Thread.join` call — so the run's result is reported
when the constructor returns, regardless of whether dispatched parse
threads have finished. -/
theorem c8_amended_thm (showPage batchPage : List Block)
    (pages : Nat → PageFetch) (fuel : Nat) (o : InitOut)
    (avail : Option (Finset PyKey)) (fuel2 idx : Nat) (s : ScraperState)
    (h : initScrape showPage batchPage pages fuel = Except.ok o) :
    o.joined = []
    ∧ (parse_all_in_parallel avail pages fuel2 idx s).joined = [] := by
  refine ⟨?_, parse_all_joined avail pages fuel2 idx s⟩
  unfold initScrape at h
  rcases hra : resolveAvailable showPage with e | av
  · rw [hra] at h
    exact absurd h (by simp)
  · rw [hra] at h
    rcases hpb : parse_batch_episodes initialState batchPage with ⟨s1, err⟩
    rw [hpb] at h
    cases err with
    | some e => simp at h
    | none =>
      by_cases ht : availTruthy av
      · simp only [ht, if_true] at h
        have ho := Except.ok.inj h
        rw [← ho]
        exact parse_all_joined av pages fuel 0 s1
      · simp only [ht, if_false] at h
        have ho := Except.ok.inj h
        rw [← ho]

def pagesOneEx : Nat → PageFetch :=
  fun n => if n = 0 then PageFetch.blocks [⟨"S - 1 [720p]", "m"⟩]
    else PageFetch.done

/-- Witness for C8 (amended): a run that reaches the end of `__init__`
without pagination has an empty joined list, as does any loop run. -/
theorem c8_amended_witness :
    ({ state := initialState, available := none, dispatched := [],
        joined := [] } : InitOut).joined = []
    ∧ (parse_all_in_parallel none pagesDoneEx 1 0 initialState).joined = [] :=
  c8_amended_thm [] [] pagesDoneEx 1
    ⟨initialState, none, [], []⟩ none 1 0 initialState rfl

/-- Claim C8 is false as stated: a run that dispatches the parse of page 0
joins nothing — the dispatched task 0 is never joined before the collection
is considered final. -/
theorem c8_counterexample :
    (parse_all_in_parallel none pagesOneEx 2 0 initialState).dispatched = [0]
    ∧ 0 ∉ (parse_all_in_parallel none pagesOneEx 2 0 initialState).joined :=
  ⟨by decide, by decide⟩
